import Mathlib

/-!
Verification of the segment-planning and incremental-posting state machine
of the Instagram auto-poster (`src/main.py`, configuration in `src/config.py`).

The Python code is shallowly embedded: durations are rationals, timestamps
are abstract day numbers, the persisted JSON state is a structure, and the
side-effecting orchestrator `run` is a pure function from an environment
(the results the external collaborators would return) to a trace of
observable events, a final in-memory state, and an outcome.
-/

namespace AutoPoster

/-! ### Configuration constants (`src/config.py`) -/

def VIDEO_SEGMENT_MAX_DURATION : ℚ := 170

def SPEED_FACTOR : ℚ := 5 / 4

def MAX_ORIGINAL_VIDEO_LENGTH : ℚ := 3600

def POST_DAILY : Bool := true

def MAX_RETRIES : Nat := 3

def DELAY_BETWEEN_POSTS : Nat := 60

def SKIP_PROBLEMATIC_VIDEOS : Bool := true

def MAX_ERRORS_BEFORE_STOP : Nat := 5

/-! ### Duration planner (`calculate_segments`, main.py lines 233-259)

The Python reads the two policy constants from module globals; they are
taken as parameters here so the planner can be stated for arbitrary
positive policy values, and `run` below applies it at the configured
constants. -/

/-- Embedding of `calculate_segments`: returns the number of segments and
the (equal) duration of each segment in source time. -/
def calculate_segments (maxDur speed : ℚ) (video_duration : ℚ) : ℤ × ℚ :=
  let max_original_duration := maxDur * speed
  let n0 := ⌈video_duration / max_original_duration⌉
  let num_segments := max 1 n0
  (num_segments, video_duration / (num_segments : ℚ))

/-- The list of source-time durations of the planned segments: the plan is
`num_segments` equal spans of `segment_duration_original`. -/
def segmentDurations (maxDur speed : ℚ) (video_duration : ℚ) : List ℚ :=
  List.replicate (calculate_segments maxDur speed video_duration).1.toNat
    (calculate_segments maxDur speed video_duration).2

/-! ### Posting state (`load_state` / `save_state` / mutators, main.py) -/

/-- One entry of the `processed_videos` or `failed_videos` history lists.
Timestamps (`datetime.now().isoformat()`) are abstracted to day numbers. -/
structure HistoryEntry where
  id : String
  name : String
  date : Nat
  reason : Option String
  kind : String
deriving Repr, DecidableEq

/-- The persisted posting state (the JSON record of `state/posting_state.json`). -/
structure PostingState where
  last_run_date : Option Nat
  current_video_index : Nat
  current_video_id : Option String
  processed_videos : List HistoryEntry
  failed_videos : List HistoryEntry
  total_posts : Nat
  consecutive_errors : Nat
  last_error : Option Nat
deriving Repr, DecidableEq

/-- The `default_state` dictionary of `load_state` (main.py lines 85-94). -/
def default_state : PostingState :=
  { last_run_date := none
    current_video_index := 0
    current_video_id := none
    processed_videos := []
    failed_videos := []
    total_posts := 0
    consecutive_errors := 0
    last_error := none }

/-- The fields actually present in a stored, well-formed JSON state object;
`none` in the outer `Option` means the key is missing from the file. -/
structure StoredFields where
  last_run_date : Option (Option Nat)
  current_video_index : Option Nat
  current_video_id : Option (Option String)
  processed_videos : Option (List HistoryEntry)
  failed_videos : Option (List HistoryEntry)
  total_posts : Option Nat
  consecutive_errors : Option Nat
  last_error : Option (Option Nat)

/-- The condition of the backing state file when `load_state` runs. -/
inductive StateFile where
  | absent
  | unreadable
  | malformed
  | stored (p : StoredFields)

/-- Embedding of `load_state` (main.py lines 83-108): a missing file, an
unreadable file or malformed JSON yields the default record (every
exception inside the `try` block is caught); a stored object is merged
key-by-key with the default. -/
def load_state : StateFile → PostingState
  | .absent => default_state
  | .unreadable => default_state
  | .malformed => default_state
  | .stored p =>
    { last_run_date := p.last_run_date.getD default_state.last_run_date
      current_video_index := p.current_video_index.getD default_state.current_video_index
      current_video_id := p.current_video_id.getD default_state.current_video_id
      processed_videos := p.processed_videos.getD default_state.processed_videos
      failed_videos := p.failed_videos.getD default_state.failed_videos
      total_posts := p.total_posts.getD default_state.total_posts
      consecutive_errors := p.consecutive_errors.getD default_state.consecutive_errors
      last_error := p.last_error.getD default_state.last_error }

/-- Embedding of `should_run_today` (main.py lines 412-432): with
`POST_DAILY` set, the run is allowed only when there is no recorded
`last_run_date` or its calendar day is strictly before today
(the code skips when `last_run_date.date() >= today`). -/
def should_run_today (today : Nat) (s : PostingState) : Bool :=
  if POST_DAILY = false then true
  else
    match s.last_run_date with
    | none => true
    | some d => decide (d < today)

/-- Embedding of the state mutation of `mark_as_processed`
(main.py lines 434-458); the save it performs is modelled by the caller. -/
def mark_as_processed (s : PostingState) (videoId videoName : String)
    (success : Bool) (now : Nat) : PostingState :=
  if success then
    { s with
        processed_videos := s.processed_videos ++
          [{ id := videoId, name := videoName, date := now, reason := none,
             kind := "success" }]
        consecutive_errors := 0
        total_posts := s.total_posts + 1
        last_run_date := some now }
  else
    { s with
        failed_videos := s.failed_videos ++
          [{ id := videoId, name := videoName, date := now, reason := none,
             kind := "failed" }]
        consecutive_errors := s.consecutive_errors + 1
        last_error := some now
        last_run_date := some now }

/-- Embedding of the state mutation of `skip_problematic_video`
(main.py lines 460-473); note it touches neither `last_run_date` nor
`current_video_index`. -/
def skip_problematic_video (s : PostingState) (videoId videoName : String)
    (reason : String) (now : Nat) : PostingState :=
  { s with
      failed_videos := s.failed_videos ++
        [{ id := videoId, name := videoName, date := now, reason := some reason,
           kind := "skipped" }]
      consecutive_errors := s.consecutive_errors + 1 }

/-! ### Catalog cursor (main.py lines 502-516) -/

/-- A video listed from the remote catalog. -/
structure VideoInfo where
  id : String
  name : String
deriving Repr, DecidableEq

/-- The `while` loop of main.py lines 507-508: advance the index past
videos whose id is among the processed ids. -/
def skipProcessed (videos : List VideoInfo) (processedIds : List String)
    (i : Nat) : Nat :=
  if h : i < videos.length then
    if (videos.get ⟨i, h⟩).id ∈ processedIds then
      skipProcessed videos processedIds (i + 1)
    else i
  else i
termination_by videos.length - i

/-- Result of the catalog-location step: the index of the video to process,
the (possibly reset) state, and whether the wraparound reset fired
(in which case the code saved the reset state, main.py line 516). -/
structure LocateResult where
  index : Nat
  state : PostingState
  didReset : Bool
deriving Repr, DecidableEq

/-- Embedding of main.py lines 502-516: skip already-processed videos from
the persisted cursor; when the index runs past the end of the listing,
reset the cursor to 0 and clear the processed markers. -/
def locateStep (videos : List VideoInfo) (s : PostingState) : LocateResult :=
  if videos.length ≤ skipProcessed videos (s.processed_videos.map (·.id))
      s.current_video_index then
    ⟨0, { s with current_video_index := 0, processed_videos := [] }, true⟩
  else
    ⟨skipProcessed videos (s.processed_videos.map (·.id)) s.current_video_index,
     s, false⟩

/-! ### Orchestrator (`run`, main.py lines 475-624)

`run` is embedded as a pure function from an environment — the answers the
external collaborators (Drive catalog, downloader, ffprobe, ffmpeg,
Instagram client) would give — to a trace of observable events, the final
in-memory state, and an outcome. -/

/-- Observable events of one invocation.  `catalogList`, `download`,
`login` and `publishAttempt` are network accesses; `saveState` records a
`save_state()` call together with the exact snapshot written. -/
inductive Event where
  | catalogList
  | download (id : String)
  | probeDuration
  | produceSegment (i : Nat)
  | login
  | publishAttempt (i : Nat) (ok : Bool)
  | sleepDelay (secs : Nat)
  | saveState (s : PostingState)
deriving Repr, DecidableEq

/-- Terminal outcome of one invocation of `run`. -/
inductive Outcome where
  | alreadyRanToday
  | stopped
  | driveInitFailed
  | noVideos
  | skipped (reason : String)
  | loginFailed
  | completed (processedIndex : Nat) (successCount : Nat)
deriving Repr, DecidableEq

/-- Result of one invocation: event trace, final in-memory state, outcome. -/
structure RunResult where
  trace : List Event
  state : PostingState
  outcome : Outcome
deriving Repr, DecidableEq

/-- Environment: the results the external collaborators return during this
invocation. -/
structure Env where
  today : Nat
  driveOk : Bool
  videos : List VideoInfo
  downloadOk : Bool
  duration : ℚ
  segmentOk : Nat → Bool
  loginOk : Bool
  publishOk : Nat → Bool

/-- The publish loop of main.py lines 573-597 over the per-segment upload
results: each segment is attempted once; after a successful attempt that is
not the last segment the fixed delay is slept; after a failed attempt the
loop either continues (skip-problematic policy) or breaks. -/
def publishLoopAux (skipFlag : Bool) (delay : Nat) (total : Nat) :
    Nat → List Bool → List Event × Nat
  | _, [] => ([], 0)
  | i, ok :: rest =>
    if ok then
      let r := publishLoopAux skipFlag delay total (i + 1) rest
      (Event.publishAttempt i true ::
        ((if i < total - 1 ∧ 0 < delay then [Event.sleepDelay delay] else []) ++ r.1),
       r.2 + 1)
    else if skipFlag then
      let r := publishLoopAux skipFlag delay total (i + 1) rest
      (Event.publishAttempt i false :: r.1, r.2)
    else ([Event.publishAttempt i false], 0)

/-- The publish loop started at the first segment. -/
def publishLoop (results : List Bool) (skipFlag : Bool) (delay : Nat) :
    List Event × Nat :=
  publishLoopAux skipFlag delay results.length 0 results

/-- Checks that every `sleepDelay` event is immediately preceded by a
successful publish attempt; the first argument says whether the previous
event was a successful publish. -/
def delaysFollowSuccess : Bool → List Event → Bool
  | _, [] => true
  | prevOk, Event.sleepDelay _ :: rest => prevOk && delaysFollowSuccess false rest
  | _, Event.publishAttempt _ ok :: rest => delaysFollowSuccess ok rest
  | _, _ :: rest => delaysFollowSuccess false rest

/-- Counts the publish attempts for segment `i` in a trace. -/
def attemptCount (i : Nat) (tr : List Event) : Nat :=
  tr.countP fun e =>
    match e with
    | Event.publishAttempt j _ => j == i
    | _ => false

/-- The finalize block of main.py lines 599-607: `mark_as_processed`
(which ends in a `save_state()` call) runs first, then the in-memory
cursor is set past the processed video.  Returns the final in-memory state
and the snapshot that `save_state` wrote (`some` = a save happened). -/
def finalizeStep (s : PostingState) (videoId videoName : String)
    (current_index : Nat) (success_count : Nat) (now : Nat) :
    PostingState × Option PostingState :=
  let saved := mark_as_processed s videoId videoName (decide (0 < success_count)) now
  ({ saved with current_video_index := current_index + 1 }, some saved)

/-- The three skip paths of `run` (main.py lines 523-546, 557-562):
`skip_problematic_video` (which saves), then the cursor is advanced and
saved again. -/
def skipStep (s : PostingState) (videoId videoName : String) (reason : String)
    (current_index : Nat) (now : Nat) : PostingState × PostingState :=
  let s2 := skip_problematic_video s videoId videoName reason now
  ({ s2 with current_video_index := current_index + 1 }, s2)

/-- Embedding of `run` (main.py lines 475-624). -/
def run (env : Env) (s : PostingState) : RunResult :=
  if should_run_today env.today s = false then ⟨[], s, .alreadyRanToday⟩
  else if MAX_ERRORS_BEFORE_STOP ≤ s.consecutive_errors then ⟨[], s, .stopped⟩
  else if env.driveOk = false then ⟨[], s, .driveInitFailed⟩
  else if env.videos = [] then ⟨[.catalogList], s, .noVideos⟩
  else
    let loc := locateStep env.videos s
    let locEvents : List Event :=
      if loc.didReset then [.saveState loc.state] else []
    let evs0 : List Event := .catalogList :: locEvents
    let v := env.videos.getD loc.index ⟨"", ""⟩
    if env.downloadOk = false then
      let r := skipStep loc.state v.id v.name "Download failed" loc.index env.today
      ⟨evs0 ++ [.download v.id, .saveState r.2, .saveState r.1], r.1,
       .skipped "Download failed"⟩
    else if env.duration ≤ 0 then
      let r := skipStep loc.state v.id v.name "Invalid duration" loc.index env.today
      ⟨evs0 ++ [.download v.id, .probeDuration, .saveState r.2, .saveState r.1],
       r.1, .skipped "Invalid duration"⟩
    else if MAX_ORIGINAL_VIDEO_LENGTH < env.duration then
      let r := skipStep loc.state v.id v.name "Too long" loc.index env.today
      ⟨evs0 ++ [.download v.id, .probeDuration, .saveState r.2, .saveState r.1],
       r.1, .skipped "Too long"⟩
    else
      let n := (calculate_segments VIDEO_SEGMENT_MAX_DURATION SPEED_FACTOR
        env.duration).1.toNat
      let produced := (List.range n).filter env.segmentOk
      let prodEvents := (List.range n).map Event.produceSegment
      if produced = [] then
        let r := skipStep loc.state v.id v.name "Segment creation failed"
          loc.index env.today
        ⟨evs0 ++ [.download v.id, .probeDuration] ++ prodEvents ++
          [.saveState r.2, .saveState r.1], r.1, .skipped "Segment creation failed"⟩
      else if env.loginOk = false then
        ⟨evs0 ++ [.download v.id, .probeDuration] ++ prodEvents ++ [.login],
         loc.state, .loginFailed⟩
      else
        let pub := publishLoop (produced.map env.publishOk)
          SKIP_PROBLEMATIC_VIDEOS DELAY_BETWEEN_POSTS
        let fin := finalizeStep loc.state v.id v.name loc.index pub.2 env.today
        ⟨evs0 ++ [.download v.id, .probeDuration] ++ prodEvents ++ [.login] ++
          pub.1 ++ (fin.2.map (fun snap => Event.saveState snap)).toList,
         fin.1, .completed loc.index pub.2⟩

end AutoPoster

namespace AutoPoster

/-- Claim C1: for every `sourceDuration > 0`, `maxOutputSegmentSeconds > 0`
and `speedFactor > 0`, the plan computed by `calculate_segments` satisfies
the SegmentPlan invariant: the count equals
`max 1 ⌈sourceDuration / (maxOutputSegmentSeconds * speedFactor)⌉`, the
count is at least 1, all segment durations are equal and sum to the source
duration, and each segment's duration divided by the speed factor is at
most `maxOutputSegmentSeconds`. -/
theorem calculate_segments_plan_invariant (d m s : ℚ)
    (hd : 0 < d) (hm : 0 < m) (hs : 0 < s) :
    (calculate_segments m s d).1 = max 1 ⌈d / (m * s)⌉ ∧
    1 ≤ (calculate_segments m s d).1 ∧
    (∀ x ∈ segmentDurations m s d, x = (calculate_segments m s d).2) ∧
    (segmentDurations m s d).sum = d ∧
    (calculate_segments m s d).2 / s ≤ m := by
  have hms : 0 < m * s := mul_pos hm hs
  have hpos : 0 < d / (m * s) := div_pos hd hms
  have hceil : 0 < ⌈d / (m * s)⌉ := Int.ceil_pos.mpr hpos
  have hn : (calculate_segments m s d).1 = max 1 ⌈d / (m * s)⌉ := rfl
  have hmax : max 1 ⌈d / (m * s)⌉ = ⌈d / (m * s)⌉ := max_eq_right hceil
  have hn1 : 1 ≤ (calculate_segments m s d).1 := by
    rw [hn]; exact le_max_left _ _
  have hnpos : (0 : ℤ) < (calculate_segments m s d).1 := lt_of_lt_of_le one_pos hn1
  have hnQ : (0 : ℚ) < ((calculate_segments m s d).1 : ℚ) := by exact_mod_cast hnpos
  refine ⟨hn, hn1, ?_, ?_, ?_⟩
  · intro x hx
    exact List.eq_of_mem_replicate hx
  · -- sum of the replicated durations is the source duration
    rw [segmentDurations, List.sum_replicate, nsmul_eq_mul]
    have htoNat : (((calculate_segments m s d).1.toNat : ℤ) : ℚ)
        = ((calculate_segments m s d).1 : ℚ) := by
      exact_mod_cast congrArg (fun z : ℤ => (z : ℚ))
        (Int.toNat_of_nonneg (le_of_lt hnpos))
    have : (((calculate_segments m s d).1.toNat : Nat) : ℚ)
        = ((calculate_segments m s d).1 : ℚ) := by
      exact_mod_cast htoNat
    rw [this]
    show ((calculate_segments m s d).1 : ℚ) * (d / ((calculate_segments m s d).1 : ℚ)) = d
    field_simp
  · -- each segment, after the speed factor, fits in the output bound
    show (d / ((calculate_segments m s d).1 : ℚ)) / s ≤ m
    rw [div_div]
    rw [div_le_iff₀ (mul_pos hnQ hs)]
    have hle : d / (m * s) ≤ ((calculate_segments m s d).1 : ℚ) := by
      rw [hn, hmax]
      exact le_trans (Int.le_ceil _) (by exact_mod_cast le_refl ⌈d / (m * s)⌉)
    calc d = d / (m * s) * (m * s) := by field_simp
    _ ≤ ((calculate_segments m s d).1 : ℚ) * (m * s) := by
        exact mul_le_mul_of_nonneg_right hle (le_of_lt hms)
    _ = m * (((calculate_segments m s d).1 : ℚ) * s) := by ring

/-- Witness for C1 at the spec's end-to-end scenario: source duration 400s,
bound 170s, speed 1.25 gives 2 segments of 200s source time, 160s output. -/
theorem calculate_segments_plan_invariant_witness :
    ((0:ℚ) < 400 ∧ (0:ℚ) < 170 ∧ (0:ℚ) < 5/4) ∧
    (calculate_segments 170 (5/4) 400).1 = 2 ∧
    (calculate_segments 170 (5/4) 400).2 = 200 ∧
    (calculate_segments 170 (5/4) 400).2 / (5/4) ≤ 170 := by
  have h := calculate_segments_plan_invariant 400 170 (5/4)
    (by norm_num) (by norm_num) (by norm_num)
  have h1 : (calculate_segments 170 (5/4) 400).1 = 2 := by
    rw [h.1]
    norm_num [Int.ceil_eq_iff]
  have h2 : (calculate_segments 170 (5/4) 400).2
      = 400 / (((calculate_segments 170 (5/4) 400).1 : ℤ) : ℚ) := rfl
  refine ⟨⟨by norm_num, by norm_num, by norm_num⟩, h1, ?_, h.2.2.2.2⟩
  rw [h2, h1]
  norm_num

/-- Claim C5: `load_state` never fails: an absent, unreadable or malformed
backing file yields exactly the documented default record, and a stored
record is returned with every missing key filled in from the default. -/
theorem load_state_never_fails :
    (∀ f : StateFile,
      (f = .absent ∨ f = .unreadable ∨ f = .malformed) →
      load_state f = default_state) ∧
    (∀ p : StoredFields,
      (load_state (.stored p)).last_run_date
          = p.last_run_date.getD default_state.last_run_date ∧
      (load_state (.stored p)).current_video_index
          = p.current_video_index.getD default_state.current_video_index ∧
      (load_state (.stored p)).current_video_id
          = p.current_video_id.getD default_state.current_video_id ∧
      (load_state (.stored p)).processed_videos
          = p.processed_videos.getD default_state.processed_videos ∧
      (load_state (.stored p)).failed_videos
          = p.failed_videos.getD default_state.failed_videos ∧
      (load_state (.stored p)).total_posts
          = p.total_posts.getD default_state.total_posts ∧
      (load_state (.stored p)).consecutive_errors
          = p.consecutive_errors.getD default_state.consecutive_errors ∧
      (load_state (.stored p)).last_error
          = p.last_error.getD default_state.last_error) := by
  constructor
  · rintro f (rfl | rfl | rfl) <;> rfl
  · intro p
    exact ⟨rfl, rfl, rfl, rfl, rfl, rfl, rfl, rfl⟩

/-- Witness for C5: `load_state` at an absent file and at a stored record
missing every key but `total_posts`. -/
theorem load_state_never_fails_witness :
    load_state .absent = default_state ∧
    (load_state (.stored ⟨none, none, none, none, none, some 7, none, none⟩)).total_posts = 7 ∧
    (load_state (.stored ⟨none, none, none, none, none, some 7, none, none⟩)).current_video_index = 0 := by
  have h := load_state_never_fails
  refine ⟨h.1 .absent (Or.inl rfl), ?_, ?_⟩
  · rw [(h.2 ⟨none, none, none, none, none, some 7, none, none⟩).2.2.2.2.2.1]
    rfl
  · rw [(h.2 ⟨none, none, none, none, none, some 7, none, none⟩).2.1]
    rfl

/-- Claim C3: with the daily gate passed and the consecutive-error count at
or above `MAX_ERRORS_BEFORE_STOP`, `run` terminates with the stopped
outcome, an empty event trace (so no catalog, download, login or publish
call), and an unchanged state. -/
theorem run_stopped_on_error_budget (env : Env) (s : PostingState)
    (h1 : should_run_today env.today s = true)
    (h2 : MAX_ERRORS_BEFORE_STOP ≤ s.consecutive_errors) :
    run env s = ⟨[], s, .stopped⟩ := by
  unfold run
  rw [h1]
  simp [h2]

/-- Witness for C3 at a concrete state with five consecutive errors. -/
theorem run_stopped_on_error_budget_witness :
    run ⟨1, true, [], true, 0, fun _ => true, true, fun _ => true⟩
        { default_state with consecutive_errors := 5 } =
      ⟨[], { default_state with consecutive_errors := 5 }, .stopped⟩ :=
  run_stopped_on_error_budget _ _ (by decide) (by decide)

/-- Counterexample for C4: the daily gate's timestamp is written by runs
with zero successful publishes as well, so it is not keyed on the last
*successful* run.  Concretely, finalizing a failed attempt on day 5 stamps
`last_run_date = 5` without incrementing `total_posts`, and a second
invocation on day 5 then exits with the already-ran-today outcome. -/
theorem daily_gate_counterexample :
    (mark_as_processed default_state "a" "v" false 5).last_run_date = some 5 ∧
    (mark_as_processed default_state "a" "v" false 5).total_posts = 0 ∧
    should_run_today 5 (mark_as_processed default_state "a" "v" false 5) = false ∧
    run ⟨5, true, [], true, 0, fun _ => true, true, fun _ => true⟩
        (mark_as_processed default_state "a" "v" false 5) =
      ⟨[], mark_as_processed default_state "a" "v" false 5, .alreadyRanToday⟩ := by
  refine ⟨rfl, rfl, rfl, ?_⟩
  unfold run
  simp [should_run_today, POST_DAILY, mark_as_processed]

/-- Claim C4, amended: the daily rate limit is checked before the error
budget and is keyed on the last run, successful or failed: whenever the
recorded last-run timestamp is on the same calendar day as the current
clock (or later), `run` exits immediately with the already-ran-today
outcome and an empty event trace, whatever the rest of the state — in
particular even when the error budget is exhausted — and
`mark_as_processed` stamps that timestamp on both the success and the
failure path. -/
theorem daily_gate_before_error_budget (env : Env) (s : PostingState) (d : Nat)
    (h1 : s.last_run_date = some d) (h2 : env.today ≤ d) :
    run env s = ⟨[], s, .alreadyRanToday⟩ ∧
    (∀ vid vname success now,
      (mark_as_processed s vid vname success now).last_run_date = some now) := by
  constructor
  · have hg : should_run_today env.today s = false := by
      unfold should_run_today
      rw [h1]
      simp [POST_DAILY]
      omega
    unfold run
    rw [hg]
    simp
  · intro vid vname success now
    cases success <;> rfl

/-- Witness for C4 at a state whose last run was day 5, invoked on day 5
with the error budget simultaneously exhausted. -/
theorem daily_gate_before_error_budget_witness :
    run ⟨5, true, [], true, 0, fun _ => true, true, fun _ => true⟩
        { default_state with last_run_date := some 5, consecutive_errors := 9 } =
      ⟨[], { default_state with last_run_date := some 5, consecutive_errors := 9 },
        .alreadyRanToday⟩ ∧
    (mark_as_processed
        { default_state with last_run_date := some 5, consecutive_errors := 9 }
        "a" "v" false 6).last_run_date = some 6 :=
  ⟨(daily_gate_before_error_budget _ _ 5 rfl (by decide)).1,
   (daily_gate_before_error_budget
      ⟨5, true, [], true, 0, fun _ => true, true, fun _ => true⟩
      _ 5 rfl (by decide)).2 "a" "v" false 6⟩

/-- Helper: when every listed video is already processed, the skip loop of
main.py lines 507-508 runs the index to (or leaves it at or past) the end
of the listing. -/
theorem skipProcessed_ge_of_all_processed (videos : List VideoInfo)
    (p : List String) (hall : ∀ v ∈ videos, v.id ∈ p) (i : Nat) :
    videos.length ≤ skipProcessed videos p i := by
  have key : ∀ n i, videos.length ≤ i + n →
      videos.length ≤ skipProcessed videos p i := by
    intro n
    induction n with
    | zero =>
      intro i hi
      unfold skipProcessed
      rw [dif_neg (by omega)]
      omega
    | succ n ih =>
      intro i hi
      unfold skipProcessed
      by_cases h : i < videos.length
      · rw [dif_pos h]
        have hv : (videos.get ⟨i, h⟩).id ∈ p :=
          hall _ (videos.get_mem i h)
        rw [if_pos hv]
        exact ih (i + 1) (by omega)
      · rw [dif_neg h]
        omega
  exact key videos.length i (by omega)

/-- Claim C6: for every non-empty catalog listing and every state in which
all listed items are already marked processed, the catalog-location step
wraps: the cursor is reset to 0, the processed markers are cleared, and
the reset fires (the code saves the reset state), so the system cycles
over the catalog instead of halting. -/
theorem locateStep_wraps_when_all_processed (videos : List VideoInfo)
    (s : PostingState) (_hne : videos ≠ [])
    (hall : ∀ v ∈ videos, v.id ∈ s.processed_videos.map (·.id)) :
    locateStep videos s =
      ⟨0, { s with current_video_index := 0, processed_videos := [] }, true⟩ := by
  unfold locateStep
  rw [if_pos (skipProcessed_ge_of_all_processed videos _ hall s.current_video_index)]

/-- Witness for C6: a one-video catalog whose only video is already in the
processed list, with the cursor already past it. -/
theorem locateStep_wraps_when_all_processed_witness :
    locateStep [⟨"a", "v1"⟩]
        { default_state with
            current_video_index := 1,
            processed_videos := [⟨"a", "v1", 0, none, "success"⟩] } =
      ⟨0, { default_state with current_video_index := 0, processed_videos := [] }, true⟩ := by
  have h := locateStep_wraps_when_all_processed [⟨"a", "v1"⟩]
    { default_state with
        current_video_index := 1,
        processed_videos := [⟨"a", "v1", 0, none, "success"⟩] }
    (by simp) (by decide)
  simpa using h

/-- Counterexample for C2: the save performed by the finalize block happens
inside `mark_as_processed`, before the cursor is advanced, so the snapshot
written to disk still carries the old cursor: after a successful finalize
of the video at index 0, the in-memory cursor is 1 but the saved snapshot's
cursor is 0, and no later save occurs in the finalize block.  The claim's
"the cursor advances by one ... and the state is saved" therefore fails for
the persisted state. -/
theorem finalize_save_misses_cursor_counterexample :
    (finalizeStep default_state "a" "v" 0 1 7).1.current_video_index = 1 ∧
    (finalizeStep default_state "a" "v" 0 1 7).2 =
      some (mark_as_processed default_state "a" "v" true 7) ∧
    (mark_as_processed default_state "a" "v" true 7).current_video_index = 0 ∧
    (finalizeStep default_state "a" "v" 0 1 7).2 ≠
      some (finalizeStep default_state "a" "v" 0 1 7).1 := by
  refine ⟨rfl, rfl, rfl, ?_⟩
  decide

/-- Claim C2, amended: after the publish loop, on at least one successful
publish the in-memory cursor advances by one, `consecutive_errors` resets
to 0, `total_posts` increments and a save occurs; on zero successful
publishes the in-memory cursor still advances by one, `consecutive_errors`
increments and the failure is appended to the failure history — but in
both cases the save happens before the cursor advance, so the persisted
snapshot carries the unadvanced cursor. -/
theorem finalizeStep_effects (s : PostingState) (vid vname : String)
    (idx c now : Nat) :
    (0 < c →
      (finalizeStep s vid vname idx c now).1.current_video_index = idx + 1 ∧
      (finalizeStep s vid vname idx c now).1.consecutive_errors = 0 ∧
      (finalizeStep s vid vname idx c now).1.total_posts = s.total_posts + 1 ∧
      (finalizeStep s vid vname idx c now).2 =
        some (mark_as_processed s vid vname true now)) ∧
    (c = 0 →
      (finalizeStep s vid vname idx c now).1.current_video_index = idx + 1 ∧
      (finalizeStep s vid vname idx c now).1.consecutive_errors
          = s.consecutive_errors + 1 ∧
      (finalizeStep s vid vname idx c now).1.failed_videos
          = s.failed_videos ++ [⟨vid, vname, now, none, "failed"⟩] ∧
      (finalizeStep s vid vname idx c now).2 =
        some (mark_as_processed s vid vname false now)) ∧
    (∀ snap, (finalizeStep s vid vname idx c now).2 = some snap →
      snap.current_video_index = s.current_video_index) := by
  refine ⟨?_, ?_, ?_⟩
  · intro hc
    have hdec : decide (0 < c) = true := decide_eq_true hc
    simp [finalizeStep, hdec, mark_as_processed]
  · intro hc
    subst hc
    simp [finalizeStep, mark_as_processed]
  · intro snap hsnap
    have : snap = mark_as_processed s vid vname (decide (0 < c)) now := by
      simpa [finalizeStep] using hsnap.symm
    subst this
    cases hd : decide (0 < c) <;> simp [mark_as_processed]

/-- Witness for C2 (amended) at one successful and one failed finalize. -/
theorem finalizeStep_effects_witness :
    (finalizeStep default_state "a" "v" 2 1 7).1.current_video_index = 3 ∧
    (finalizeStep default_state "a" "v" 2 1 7).1.consecutive_errors = 0 ∧
    (finalizeStep default_state "a" "v" 2 0 7).1.consecutive_errors = 1 := by
  have h1 := (finalizeStep_effects default_state "a" "v" 2 1 7).1 (by decide)
  have h0 := (finalizeStep_effects default_state "a" "v" 2 0 7).2.1 rfl
  refine ⟨h1.1, h1.2.1, ?_⟩
  rw [h0.2.1]
  rfl

set_option maxRecDepth 8192 in
/-- Counterexample for C8: no bound is applied to the history lists — there
is no cap constant anywhere in the code and no eviction.  101 consecutive
skips starting from the default state leave 101 entries in the failure
history (beyond the spec's stated default cap magnitude of 10-100), and the
oldest entry is still the first element, so FIFO eviction never happened. -/
theorem history_unbounded_counterexample :
    (((fun st => skip_problematic_video st "a" "v" "r" 0)^[101])
        default_state).failed_videos.length = 101 ∧
    (((fun st => skip_problematic_video st "a" "v" "r" 0)^[101])
        default_state).failed_videos.head? =
      some ⟨"a", "v", 0, some "r", "skipped"⟩ := by
  constructor <;> decide

/-- Claim C8, amended: the history lists are unbounded: each state mutation
appends exactly one entry to the corresponding history list and never drops
any existing entry — `mark_as_processed` appends one entry to the processed
history on success and one to the failure history on failure, and
`skip_problematic_video` appends one entry to the failure history; the
other list is left untouched. -/
theorem history_append_only (s : PostingState) (vid vname reason : String)
    (now : Nat) :
    (mark_as_processed s vid vname true now).processed_videos
        = s.processed_videos ++ [⟨vid, vname, now, none, "success"⟩] ∧
    (mark_as_processed s vid vname true now).failed_videos = s.failed_videos ∧
    (mark_as_processed s vid vname false now).failed_videos
        = s.failed_videos ++ [⟨vid, vname, now, none, "failed"⟩] ∧
    (mark_as_processed s vid vname false now).processed_videos
        = s.processed_videos ∧
    (skip_problematic_video s vid vname reason now).failed_videos
        = s.failed_videos ++ [⟨vid, vname, now, some reason, "skipped"⟩] ∧
    (skip_problematic_video s vid vname reason now).processed_videos
        = s.processed_videos :=
  ⟨rfl, rfl, rfl, rfl, rfl, rfl⟩

/-- Unfolding equation: publish loop at an empty result list. -/
theorem publishLoopAux_nil_fst (skipFlag : Bool) (delay total i : Nat) :
    (publishLoopAux skipFlag delay total i []).1 = [] := rfl

/-- Unfolding equation: publish loop at a successful first upload. -/
theorem publishLoopAux_cons_true_fst (skipFlag : Bool) (delay total i : Nat)
    (rest : List Bool) :
    (publishLoopAux skipFlag delay total i (true :: rest)).1 =
      Event.publishAttempt i true ::
        ((if i < total - 1 ∧ 0 < delay then [Event.sleepDelay delay] else []) ++
          (publishLoopAux skipFlag delay total (i + 1) rest).1) := rfl

/-- Unfolding equation: failed first upload under the skip policy. -/
theorem publishLoopAux_cons_false_skip_fst (delay total i : Nat)
    (rest : List Bool) :
    (publishLoopAux true delay total i (false :: rest)).1 =
      Event.publishAttempt i false ::
        (publishLoopAux true delay total (i + 1) rest).1 := rfl

/-- Unfolding equation: failed first upload under the abandon policy. -/
theorem publishLoopAux_cons_false_stop_fst (delay total i : Nat)
    (rest : List Bool) :
    (publishLoopAux false delay total i (false :: rest)).1 =
      [Event.publishAttempt i false] := rfl

/-- Unfolding equation: the delay checker over a publish attempt. -/
theorem delaysFollowSuccess_attempt (prev : Bool) (k : Nat) (b : Bool)
    (l : List Event) :
    delaysFollowSuccess prev (Event.publishAttempt k b :: l) =
      delaysFollowSuccess b l := rfl

/-- Unfolding equation: the delay checker over a sleep. -/
theorem delaysFollowSuccess_sleep (prev : Bool) (d : Nat) (l : List Event) :
    delaysFollowSuccess prev (Event.sleepDelay d :: l) =
      (prev && delaysFollowSuccess false l) := rfl

/-- The attempt counter over an empty trace. -/
theorem attemptCount_nil (i : Nat) : attemptCount i [] = 0 := rfl

/-- The attempt counter distributes over appending. -/
theorem attemptCount_append (i : Nat) (l1 l2 : List Event) :
    attemptCount i (l1 ++ l2) = attemptCount i l1 + attemptCount i l2 := by
  unfold attemptCount
  exact List.countP_append _ _ _

/-- The attempt counter over a leading publish attempt. -/
theorem attemptCount_cons_attempt (i j : Nat) (b : Bool) (l : List Event) :
    attemptCount i (Event.publishAttempt j b :: l) =
      (if j = i then 1 else 0) + attemptCount i l := by
  unfold attemptCount
  rw [List.countP_cons]
  by_cases h : j = i <;> simp [h, Nat.add_comm]

/-- The attempt counter ignores an optional sleep block. -/
theorem attemptCount_sleep_if (i d : Nat) (c : Prop) [Decidable c] :
    attemptCount i (if c then [Event.sleepDelay d] else []) = 0 := by
  by_cases h : c
  · rw [if_pos h]
    rfl
  · rw [if_neg h]
    rfl

/-- Helper: every publish attempt in the loop started at index `i` carries
an index at least `i`. -/
theorem publishLoopAux_attempt_ge (skipFlag : Bool) (delay total : Nat)
    (results : List Bool) :
    ∀ i j b,
      Event.publishAttempt j b ∈ (publishLoopAux skipFlag delay total i results).1 →
      i ≤ j := by
  induction results with
  | nil =>
    intro i j b h
    rw [publishLoopAux_nil_fst] at h
    simp at h
  | cons ok rest ih =>
    intro i j b h
    cases ok with
    | true =>
      rw [publishLoopAux_cons_true_fst] at h
      simp only [List.mem_cons, List.mem_append] at h
      rcases h with h | h | h
      · injection h with h1 h2
        omega
      · by_cases hd : i < total - 1 ∧ 0 < delay
        · rw [if_pos hd] at h
          simp at h
        · rw [if_neg hd] at h
          simp at h
      · have := ih (i + 1) j b h
        omega
    | false =>
      cases skipFlag with
      | true =>
        rw [publishLoopAux_cons_false_skip_fst] at h
        simp only [List.mem_cons] at h
        rcases h with h | h
        · injection h with h1 h2
          omega
        · have := ih (i + 1) j b h
          omega
      | false =>
        rw [publishLoopAux_cons_false_stop_fst] at h
        simp only [List.mem_singleton] at h
        injection h with h1 h2
        omega

/-- Helper: the publish loop makes at most one attempt per segment index. -/
theorem publishLoopAux_attemptCount_le_one (skipFlag : Bool) (delay total : Nat)
    (results : List Bool) :
    ∀ i₀ i, attemptCount i (publishLoopAux skipFlag delay total i₀ results).1 ≤ 1 := by
  induction results with
  | nil =>
    intro i₀ i
    rw [publishLoopAux_nil_fst, attemptCount_nil]
    omega
  | cons ok rest ih =>
    intro i₀ i
    have tail_le := ih (i₀ + 1) i
    have tail_zero : attemptCount i₀
        (publishLoopAux skipFlag delay total (i₀ + 1) rest).1 = 0 := by
      unfold attemptCount
      rw [List.countP_eq_zero]
      intro e he
      cases e with
      | publishAttempt j bb =>
        have hij := publishLoopAux_attempt_ge skipFlag delay total rest (i₀ + 1) j bb he
        simp only [beq_iff_eq]
        omega
      | catalogList => simp
      | download id => simp
      | probeDuration => simp
      | produceSegment k => simp
      | login => simp
      | sleepDelay d => simp
      | saveState st => simp
    cases ok with
    | true =>
      rw [publishLoopAux_cons_true_fst, attemptCount_cons_attempt,
        attemptCount_append, attemptCount_sleep_if]
      by_cases hii : i₀ = i
      · subst hii
        rw [tail_zero]
        simp
      · rw [if_neg hii]
        omega
    | false =>
      cases skipFlag with
      | true =>
        rw [publishLoopAux_cons_false_skip_fst, attemptCount_cons_attempt]
        by_cases hii : i₀ = i
        · subst hii
          rw [tail_zero]
          simp
        · rw [if_neg hii]
          omega
      | false =>
        rw [publishLoopAux_cons_false_stop_fst,
          show [Event.publishAttempt i₀ false]
            = Event.publishAttempt i₀ false :: [] from rfl,
          attemptCount_cons_attempt, attemptCount_nil]
        split <;> omega

/-- Helper: in the publish loop's trace, every sleep is immediately
preceded by a successful publish attempt. -/
theorem publishLoopAux_delays (skipFlag : Bool) (delay total : Nat)
    (results : List Bool) :
    ∀ i prev,
      delaysFollowSuccess prev (publishLoopAux skipFlag delay total i results).1 = true := by
  induction results with
  | nil =>
    intro i prev
    rw [publishLoopAux_nil_fst]
    rfl
  | cons ok rest ih =>
    intro i prev
    cases ok with
    | true =>
      rw [publishLoopAux_cons_true_fst]
      by_cases hd : i < total - 1 ∧ 0 < delay
      · rw [if_pos hd, List.singleton_append, delaysFollowSuccess_attempt,
          delaysFollowSuccess_sleep]
        rw [ih (i + 1) false]
        rfl
      · rw [if_neg hd, List.nil_append, delaysFollowSuccess_attempt]
        exact ih (i + 1) true
    | false =>
      cases skipFlag with
      | true =>
        rw [publishLoopAux_cons_false_skip_fst, delaysFollowSuccess_attempt]
        exact ih (i + 1) false
      | false =>
        rw [publishLoopAux_cons_false_stop_fst, delaysFollowSuccess_attempt]
        rfl

/-- Helper: the catalog-location step never touches the failure history,
the error count, the post counter or the gate timestamp. -/
theorem locateStep_preserves (videos : List VideoInfo) (s : PostingState) :
    (locateStep videos s).state.failed_videos = s.failed_videos ∧
    (locateStep videos s).state.consecutive_errors = s.consecutive_errors ∧
    (locateStep videos s).state.total_posts = s.total_posts ∧
    (locateStep videos s).state.last_run_date = s.last_run_date := by
  unfold locateStep
  split <;> exact ⟨rfl, rfl, rfl, rfl⟩

/-- Helper: if the wraparound reset did not fire, the catalog-location step
returns the state exactly as loaded. -/
theorem locateStep_state_of_not_reset (videos : List VideoInfo)
    (s : PostingState) (h : (locateStep videos s).didReset = false) :
    (locateStep videos s).state = s := by
  unfold locateStep at h ⊢
  by_cases hc : videos.length ≤ skipProcessed videos
      (s.processed_videos.map (·.id)) s.current_video_index
  · rw [if_pos hc] at h
    simp at h
  · rw [if_neg hc]

/-- Helper: symbolic execution of `run` down the login-failure branch:
with the gates passed, a fetched video of admissible positive duration, a
non-empty produced segment set, and a failed Instagram login, `run`
returns the located state unchanged with the login-failed outcome, after
the catalog, download, probe, production and login events only. -/
theorem run_login_failed_eq (env : Env) (s : PostingState)
    (h1 : should_run_today env.today s = true)
    (h2 : s.consecutive_errors < MAX_ERRORS_BEFORE_STOP)
    (h3 : env.driveOk = true)
    (h4 : env.videos ≠ [])
    (h5 : env.downloadOk = true)
    (h6 : 0 < env.duration)
    (h7 : env.duration ≤ MAX_ORIGINAL_VIDEO_LENGTH)
    (h8 : (List.range ((calculate_segments VIDEO_SEGMENT_MAX_DURATION SPEED_FACTOR
        env.duration).1.toNat)).filter env.segmentOk ≠ [])
    (h9 : env.loginOk = false) :
    run env s =
      ⟨(Event.catalogList ::
          (if (locateStep env.videos s).didReset = true
            then [Event.saveState (locateStep env.videos s).state] else [])) ++
        [Event.download (env.videos.getD (locateStep env.videos s).index ⟨"", ""⟩).id,
          Event.probeDuration] ++
        (List.range ((calculate_segments VIDEO_SEGMENT_MAX_DURATION SPEED_FACTOR
          env.duration).1.toNat)).map Event.produceSegment ++ [Event.login],
       (locateStep env.videos s).state, .loginFailed⟩ := by
  have hgate : ¬ (should_run_today env.today s = false) := by
    rw [h1]
    simp
  have herr : ¬ (MAX_ERRORS_BEFORE_STOP ≤ s.consecutive_errors) := Nat.not_le.mpr h2
  have hdrv : ¬ (env.driveOk = false) := by
    rw [h3]
    simp
  have hdl : ¬ (env.downloadOk = false) := by
    rw [h5]
    simp
  have hdur0 : ¬ (env.duration ≤ 0) := not_le.mpr h6
  have hlong : ¬ (MAX_ORIGINAL_VIDEO_LENGTH < env.duration) := not_lt.mpr h7
  simp only [run, if_neg hgate, if_neg herr, if_neg hdrv, if_neg h4, if_neg hdl,
    if_neg hdur0, if_neg hlong, if_neg h8, if_pos h9]

/-- Helper: symbolic execution of `run` down the too-long skip branch:
with the gates passed and a measured duration above the hard cap, `run`
skips the video with reason Too long: it appends the failure entry,
increments the error count, advances and saves the cursor, and never
produces, logs in or publishes. -/
theorem run_too_long_eq (env : Env) (s : PostingState)
    (h1 : should_run_today env.today s = true)
    (h2 : s.consecutive_errors < MAX_ERRORS_BEFORE_STOP)
    (h3 : env.driveOk = true)
    (h4 : env.videos ≠ [])
    (h5 : env.downloadOk = true)
    (h6 : MAX_ORIGINAL_VIDEO_LENGTH < env.duration) :
    run env s =
      ⟨(Event.catalogList ::
          (if (locateStep env.videos s).didReset = true
            then [Event.saveState (locateStep env.videos s).state] else [])) ++
        [Event.download (env.videos.getD (locateStep env.videos s).index ⟨"", ""⟩).id,
          Event.probeDuration,
          Event.saveState (skipStep (locateStep env.videos s).state
            (env.videos.getD (locateStep env.videos s).index ⟨"", ""⟩).id
            (env.videos.getD (locateStep env.videos s).index ⟨"", ""⟩).name
            "Too long" (locateStep env.videos s).index env.today).2,
          Event.saveState (skipStep (locateStep env.videos s).state
            (env.videos.getD (locateStep env.videos s).index ⟨"", ""⟩).id
            (env.videos.getD (locateStep env.videos s).index ⟨"", ""⟩).name
            "Too long" (locateStep env.videos s).index env.today).1],
       (skipStep (locateStep env.videos s).state
         (env.videos.getD (locateStep env.videos s).index ⟨"", ""⟩).id
         (env.videos.getD (locateStep env.videos s).index ⟨"", ""⟩).name
         "Too long" (locateStep env.videos s).index env.today).1,
       .skipped "Too long"⟩ := by
  have hgate : ¬ (should_run_today env.today s = false) := by
    rw [h1]
    simp
  have herr : ¬ (MAX_ERRORS_BEFORE_STOP ≤ s.consecutive_errors) := Nat.not_le.mpr h2
  have hdrv : ¬ (env.driveOk = false) := by
    rw [h3]
    simp
  have hdl : ¬ (env.downloadOk = false) := by
    rw [h5]
    simp
  have hdur0 : ¬ (env.duration ≤ 0) := by
    have hpos : (0:ℚ) < env.duration := by
      have h36 : (0:ℚ) < MAX_ORIGINAL_VIDEO_LENGTH := by
        rw [MAX_ORIGINAL_VIDEO_LENGTH]
        norm_num
      exact lt_trans h36 h6
    exact not_le.mpr hpos
  simp only [run, if_neg hgate, if_neg herr, if_neg hdrv, if_neg h4, if_neg hdl,
    if_neg hdur0, if_pos h6]

/-- Helper: the planner at the configured policy constants yields one
segment for a 100-second source. -/
theorem calc_count_toNat_100 :
    ((calculate_segments VIDEO_SEGMENT_MAX_DURATION SPEED_FACTOR (100:ℚ)).1).toNat = 1 := by
  have h : (calculate_segments VIDEO_SEGMENT_MAX_DURATION SPEED_FACTOR (100:ℚ)).1 = 1 := by
    show max 1 ⌈(100:ℚ) / (VIDEO_SEGMENT_MAX_DURATION * SPEED_FACTOR)⌉ = 1
    rw [VIDEO_SEGMENT_MAX_DURATION, SPEED_FACTOR]
    norm_num [Int.ceil_eq_iff]
  rw [h]
  rfl

/-- Claim C9: a fetched video whose measured duration exceeds
`MAX_ORIGINAL_VIDEO_LENGTH` is skipped without producing, logging in or
publishing anything: the failure history gains an entry with reason
Too long, the error count increments, the cursor advances by one past the
located video and the final state is saved. -/
theorem run_skips_too_long (env : Env) (s : PostingState)
    (h1 : should_run_today env.today s = true)
    (h2 : s.consecutive_errors < MAX_ERRORS_BEFORE_STOP)
    (h3 : env.driveOk = true)
    (h4 : env.videos ≠ [])
    (h5 : env.downloadOk = true)
    (h6 : MAX_ORIGINAL_VIDEO_LENGTH < env.duration) :
    (run env s).outcome = .skipped "Too long" ∧
    (run env s).state.failed_videos = s.failed_videos ++
      [⟨(env.videos.getD (locateStep env.videos s).index ⟨"", ""⟩).id,
        (env.videos.getD (locateStep env.videos s).index ⟨"", ""⟩).name,
        env.today, some "Too long", "skipped"⟩] ∧
    (run env s).state.consecutive_errors = s.consecutive_errors + 1 ∧
    (run env s).state.current_video_index = (locateStep env.videos s).index + 1 ∧
    Event.saveState (run env s).state ∈ (run env s).trace ∧
    (∀ i b, Event.publishAttempt i b ∉ (run env s).trace) ∧
    Event.login ∉ (run env s).trace ∧
    (∀ i, Event.produceSegment i ∉ (run env s).trace) := by
  rw [run_too_long_eq env s h1 h2 h3 h4 h5 h6]
  refine ⟨rfl, ?_, ?_, rfl, ?_, ?_, ?_, ?_⟩
  · show (locateStep env.videos s).state.failed_videos ++ _ = _
    rw [(locateStep_preserves env.videos s).1]
  · show (locateStep env.videos s).state.consecutive_errors + 1 = _
    rw [(locateStep_preserves env.videos s).2.1]
  · simp
  · intro i b hmem
    by_cases hr : (locateStep env.videos s).didReset = true <;>
      simp [hr] at hmem
  · intro hmem
    by_cases hr : (locateStep env.videos s).didReset = true <;>
      simp [hr] at hmem
  · intro i hmem
    by_cases hr : (locateStep env.videos s).didReset = true <;>
      simp [hr] at hmem

/-- Witness for C9: a 4000-second video in a one-item catalog is skipped as
too long, leaving one consecutive error and the cursor at 1. -/
theorem run_skips_too_long_witness :
    (run ⟨1, true, [⟨"a", "v"⟩], true, 4000, fun _ => true, true, fun _ => true⟩
        default_state).outcome = .skipped "Too long" ∧
    (run ⟨1, true, [⟨"a", "v"⟩], true, 4000, fun _ => true, true, fun _ => true⟩
        default_state).state.consecutive_errors = 1 ∧
    (run ⟨1, true, [⟨"a", "v"⟩], true, 4000, fun _ => true, true, fun _ => true⟩
        default_state).state.current_video_index = 1 := by
  have h := run_skips_too_long
    ⟨1, true, [⟨"a", "v"⟩], true, 4000, fun _ => true, true, fun _ => true⟩
    default_state (by decide) (by decide) rfl (by simp) rfl
    (by rw [MAX_ORIGINAL_VIDEO_LENGTH]; norm_num)
  have hidx : (locateStep [(⟨"a", "v"⟩ : VideoInfo)] default_state).index = 0 := by
    simp [locateStep, skipProcessed, default_state]
  refine ⟨h.1, ?_, ?_⟩
  · rw [h.2.2.1]
    rfl
  · rw [h.2.2.2.1]
    simp [locateStep, skipProcessed, default_state]

/-- Counterexample for C10: when the catalog-location step performs the
wraparound reset before the login failure, `run` does modify and save the
persisted state even though the login failed after segments were produced:
starting from a state whose only video is already processed, the final
state differs from the initial one and a save event is in the trace. -/
theorem login_failure_counterexample :
    (run ⟨1, true, [⟨"a", "v"⟩], true, 100, fun _ => true, false, fun _ => true⟩
        { default_state with
            processed_videos := [⟨"a", "v", 0, none, "success"⟩] }).outcome
      = .loginFailed ∧
    (run ⟨1, true, [⟨"a", "v"⟩], true, 100, fun _ => true, false, fun _ => true⟩
        { default_state with
            processed_videos := [⟨"a", "v", 0, none, "success"⟩] }).state ≠
      { default_state with processed_videos := [⟨"a", "v", 0, none, "success"⟩] } ∧
    Event.saveState
        ((run ⟨1, true, [⟨"a", "v"⟩], true, 100, fun _ => true, false, fun _ => true⟩
          { default_state with
              processed_videos := [⟨"a", "v", 0, none, "success"⟩] }).state) ∈
      (run ⟨1, true, [⟨"a", "v"⟩], true, 100, fun _ => true, false, fun _ => true⟩
        { default_state with
            processed_videos := [⟨"a", "v", 0, none, "success"⟩] }).trace := by
  have h8 : (List.range ((calculate_segments VIDEO_SEGMENT_MAX_DURATION SPEED_FACTOR
      (100:ℚ)).1.toNat)).filter (fun _ => true) ≠ ([] : List Nat) := by
    rw [calc_count_toNat_100]
    decide
  have heq := run_login_failed_eq
    ⟨1, true, [⟨"a", "v"⟩], true, 100, fun _ => true, false, fun _ => true⟩
    { default_state with processed_videos := [⟨"a", "v", 0, none, "success"⟩] }
    (by decide) (by decide) rfl (by simp) rfl
    (by rw [show (⟨1, true, [⟨"a", "v"⟩], true, 100, fun _ => true, false,
        fun _ => true⟩ : Env).duration = (100:ℚ) from rfl]; norm_num)
    (by rw [show (⟨1, true, [⟨"a", "v"⟩], true, 100, fun _ => true, false,
        fun _ => true⟩ : Env).duration = (100:ℚ) from rfl,
        MAX_ORIGINAL_VIDEO_LENGTH]; norm_num)
    h8 rfl
  rw [heq]
  have hloc : locateStep [(⟨"a", "v"⟩ : VideoInfo)]
      { default_state with processed_videos := [⟨"a", "v", 0, none, "success"⟩] } =
      ⟨0, { default_state with current_video_index := 0, processed_videos := [] },
        true⟩ := by
    simp [locateStep, skipProcessed, default_state]
  refine ⟨rfl, ?_, ?_⟩
  · show (locateStep [(⟨"a", "v"⟩ : VideoInfo)]
        { default_state with processed_videos := [⟨"a", "v", 0, none, "success"⟩] }).state ≠ _
    rw [hloc]
    decide
  · show Event.saveState ((locateStep [(⟨"a", "v"⟩ : VideoInfo)]
        { default_state with processed_videos := [⟨"a", "v", 0, none, "success"⟩] }).state) ∈ _
    rw [hloc]
    simp

/-- Claim C10, amended: if Instagram login fails after segments were
produced, `run` performs no state mutation and no save from that point on:
the final state is exactly the state left by the catalog-location step, and
when the wraparound reset did not fire that state is the loaded state
unchanged — nothing appended to any history, no error increment, no cursor
move — and the trace contains no save event at all. -/
theorem run_login_failure_no_mutation (env : Env) (s : PostingState)
    (h1 : should_run_today env.today s = true)
    (h2 : s.consecutive_errors < MAX_ERRORS_BEFORE_STOP)
    (h3 : env.driveOk = true)
    (h4 : env.videos ≠ [])
    (h5 : env.downloadOk = true)
    (h6 : 0 < env.duration)
    (h7 : env.duration ≤ MAX_ORIGINAL_VIDEO_LENGTH)
    (h8 : (List.range ((calculate_segments VIDEO_SEGMENT_MAX_DURATION SPEED_FACTOR
        env.duration).1.toNat)).filter env.segmentOk ≠ [])
    (h9 : env.loginOk = false) :
    (run env s).outcome = .loginFailed ∧
    (run env s).state = (locateStep env.videos s).state ∧
    ((locateStep env.videos s).didReset = false →
      (run env s).state = s ∧
      ∀ snap : PostingState, Event.saveState snap ∉ (run env s).trace) := by
  rw [run_login_failed_eq env s h1 h2 h3 h4 h5 h6 h7 h8 h9]
  refine ⟨rfl, rfl, ?_⟩
  intro hres
  refine ⟨locateStep_state_of_not_reset env.videos s hres, ?_⟩
  intro snap hmem
  rw [hres] at hmem
  simp at hmem

/-- Witness for C10 (amended): login failure on a fresh state over a
one-video catalog leaves the state exactly as loaded. -/
theorem run_login_failure_no_mutation_witness :
    (run ⟨1, true, [⟨"a", "v"⟩], true, 100, fun _ => true, false, fun _ => true⟩
        default_state).outcome = .loginFailed ∧
    (run ⟨1, true, [⟨"a", "v"⟩], true, 100, fun _ => true, false, fun _ => true⟩
        default_state).state = default_state := by
  have h8 : (List.range ((calculate_segments VIDEO_SEGMENT_MAX_DURATION SPEED_FACTOR
      (100:ℚ)).1.toNat)).filter (fun _ => true) ≠ ([] : List Nat) := by
    rw [calc_count_toNat_100]
    decide
  have h := run_login_failure_no_mutation
    ⟨1, true, [⟨"a", "v"⟩], true, 100, fun _ => true, false, fun _ => true⟩
    default_state (by decide) (by decide) rfl (by simp) rfl
    (by rw [show (⟨1, true, [⟨"a", "v"⟩], true, 100, fun _ => true, false,
        fun _ => true⟩ : Env).duration = (100:ℚ) from rfl]; norm_num)
    (by rw [show (⟨1, true, [⟨"a", "v"⟩], true, 100, fun _ => true, false,
        fun _ => true⟩ : Env).duration = (100:ℚ) from rfl,
        MAX_ORIGINAL_VIDEO_LENGTH]; norm_num)
    h8 rfl
  have hres : (locateStep [(⟨"a", "v"⟩ : VideoInfo)] default_state).didReset = false := by
    simp [locateStep, skipProcessed, default_state]
  exact ⟨h.1, (h.2.2 hres).1⟩

/-- Counterexample for C7: no retry loop exists — a segment whose upload
fails is attempted exactly once (not `MAX_RETRIES` = 3 times, with no
backoff) before being counted as failed: on a one-segment run whose upload
fails, the trace is a single failed attempt and the success count is 0. -/
theorem publish_no_retry_counterexample :
    (publishLoop [false] true 60).1 = [Event.publishAttempt 0 false] ∧
    (publishLoop [false] true 60).2 = 0 ∧
    attemptCount 0 (publishLoop [false] true 60).1 = 1 ∧
    1 < MAX_RETRIES := by
  refine ⟨?_, ?_, ?_, ?_⟩ <;> decide

/-- Claim C7, amended: the publish step attempts each segment's upload at
most once — the `MAX_RETRIES` configuration constant is never consulted —
and the fixed inter-segment delay is slept only immediately after a
successful segment publish (and not after the last segment), never after a
failure. -/
theorem publishLoop_single_attempt_delay_after_success (results : List Bool)
    (skipFlag : Bool) (delay : Nat) :
    (∀ i, attemptCount i (publishLoop results skipFlag delay).1 ≤ 1) ∧
    delaysFollowSuccess false (publishLoop results skipFlag delay).1 = true := by
  constructor
  · intro i
    exact publishLoopAux_attemptCount_le_one skipFlag delay results.length results 0 i
  · exact publishLoopAux_delays skipFlag delay results.length results 0 false

end AutoPoster
